import Mathlib

/-!
Verification development for the YorkUChats server (src/server/server.js).

The document store is MongoDB accessed through Mongoose; we embed the
database as a list of `Course` documents and give the Mongo query /
update operators used by the server their standard semantics:

* a filter such as `{ code: c, "sections.name": s, "sections.links.url": u }`
  matches a document when each condition holds of *some* element of the
  corresponding array, independently of the others (no `$elemMatch` in the
  source);
* `findOne` returns the first matching document;
* `findOneAndUpdate` applies the update to the first matching document
  (no `upsert` in the source, so no match means no write);
* `$push` appends; the positional `$` operator targets the first array
  element matching the query's condition on that array; `arrayFilters`
  select every element matching the given predicate.

HTTP handlers become pure functions from the request and the current
state to a status code and the next state.  External collaborators
(captcha verdict, email delivery outcome, freshly generated code,
clock) enter as explicit parameters.
-/

namespace YorkUChats

/-! ## HTTP status constants (source lines 90–97) -/

def CREATED : Nat := 201
def BAD_REQUEST : Nat := 400
def UNAUTHORIZED : Nat := 401
def GONE : Nat := 410
def NOT_FOUND : Nat := 404
def CONFLICT : Nat := 409
def SERVER_ERROR : Nat := 500
def UNPROCESSABLE : Nat := 422

/-! ## JavaScript truthiness for the request-shape checks -/

/-- JS truthiness of a string field: present and non-empty. -/
def truthy (s : String) : Bool := s ≠ ""

/-- JS truthiness of an optional string field (absent or empty is falsy). -/
def captchaTruthy : Option String → Bool
  | none => false
  | some s => truthy s

/-- JS `String.prototype.toUpperCase` (on the ASCII data the server
handles), as a map over the character list. -/
def jsToUpper (s : String) : String := ⟨s.data.map Char.toUpper⟩

/-- Whitespace for `String.prototype.trim`. -/
def isWs (c : Char) : Bool := c = ' ' || c = '\t' || c = '\n' || c = '\r'

/-- JS `String.prototype.trim`: drop leading and trailing whitespace. -/
def jsTrim (s : String) : String :=
  ⟨((s.data.dropWhile isWs).reverse.dropWhile isWs).reverse⟩

/-! ## Document model (course → section → link) -/

structure Link where
  type : String
  url : String
  clicks : Nat
  createdAt : Nat
  updatedAt : Nat
deriving DecidableEq

structure Section where
  name : String
  links : List Link
deriving DecidableEq

structure Course where
  code : String
  name : String
  faculty : String
  subject : String
  number : String
  credits : String
  sections : List Section
deriving DecidableEq

/-- Mongo condition `"sections.name": s` on a course document:
some section has name `s`. -/
def Course.matchesSectionName (c : Course) (s : String) : Bool :=
  c.sections.any (fun sec => sec.name = s)

/-- Mongo condition `"sections.links.url": u` on a course document:
some section has some link with url `u` (independent of which section
satisfies any other condition of the same filter). -/
def Course.matchesLinkUrl (c : Course) (u : String) : Bool :=
  c.sections.any (fun sec => sec.links.any (fun l => l.url = u))

/-- `findOneAndUpdate`: apply `f` to the first document satisfying `p`;
returns whether a document matched, and the updated collection. -/
def updateFirst (db : List Course) (p : Course → Bool) (f : Course → Course) :
    Bool × List Course :=
  match db with
  | [] => (false, [])
  | c :: rest =>
    if p c then (true, f c :: rest)
    else
      let r := updateFirst rest p f
      (r.1, c :: r.2)

/-! ## POST /courses/ (source lines 282–297) -/

structure CourseBody where
  name : String
  subject : String
  number : String
  faculty : String
  credits : String
  captcha : Option String
deriving DecidableEq

/-- Modelled from the spec: the Course schema (db/models/course.js, not
present under src/) derives the stored `code` as the uppercase, trimmed
concatenation faculty+subject+number+credits ("derived key = uppercase
concatenation of faculty+subject+number+credits, trimmed"). -/
def deriveCode (b : CourseBody) : String :=
  jsToUpper (jsTrim (b.faculty ++ b.subject ++ b.number ++ b.credits))

def Course.fromBody (b : CourseBody) : Course :=
  { code := deriveCode b, name := b.name, faculty := b.faculty, subject := b.subject,
    number := b.number, credits := b.credits, sections := [] }

/-- The raw (un-normalized) concatenation the handler queries with on
source line 287. -/
def rawCode (b : CourseBody) : String :=
  b.faculty ++ b.subject ++ b.number ++ b.credits

/-- The request-shape check of source line 284 up to the captcha call. -/
def courseFieldsOk (b : CourseBody) : Bool :=
  truthy b.name && truthy b.subject && truthy b.number && truthy b.faculty
    && truthy b.credits && captchaTruthy b.captcha

/-- Handler for `POST /courses/`.  Returns (status, echoed body on
success, next collection). -/
def createCourseHandler (db : List Course) (b : CourseBody) (captchaOk : Bool) :
    Nat × Option CourseBody × List Course :=
  if courseFieldsOk b && captchaOk then
    match db.find? (fun c => c.code = rawCode b) with
    | some _ => (CONFLICT, none, db)
    | none => (CREATED, some b, db ++ [Course.fromBody b])
  else (BAD_REQUEST, none, db)

/-! ## POST /courses/:code/sections (source lines 318–338) -/

structure SectionBody where
  name : String
  captcha : Option String
deriving DecidableEq

def Section.fromBody (b : SectionBody) : Section :=
  { name := b.name, links := [] }

/-- First store round trip of the section handler (source line 325):
`findOne({ code, "sections.name": name })`, reported as a boolean. -/
def sectionDupCheck (db : List Course) (code nm : String) : Bool :=
  (db.find? (fun c => c.code = code && c.matchesSectionName nm)).isSome

/-- Second store round trip of the section handler (source line 329):
`findOneAndUpdate({ code }, { $push: { sections: s } })`.  The filter
does not exclude courses already holding a section of the same name. -/
def sectionPush (db : List Course) (code : String) (s : Section) : Bool × List Course :=
  updateFirst db (fun c => c.code = code) (fun c => { c with sections := c.sections ++ [s] })

/-- Handler for `POST /courses/:code/sections`: validation, then the
duplicate check, then the unconditional push, each a separate store
operation. -/
def createSectionHandler (db : List Course) (codeParam : String) (b : SectionBody)
    (captchaOk : Bool) : Nat × List Course :=
  if truthy (jsToUpper (jsTrim codeParam)) && truthy b.name
      && captchaTruthy b.captcha && captchaOk then
    if sectionDupCheck db (jsToUpper (jsTrim codeParam)) b.name then (CONFLICT, db)
    else
      if (sectionPush db (jsToUpper (jsTrim codeParam)) (Section.fromBody b)).1 then
        (CREATED, (sectionPush db (jsToUpper (jsTrim codeParam)) (Section.fromBody b)).2)
      else (NOT_FOUND, (sectionPush db (jsToUpper (jsTrim codeParam)) (Section.fromBody b)).2)
  else (BAD_REQUEST, db)

/-! ## VerificationService (src/server/mod/verifier.js is not under src/) -/

/-- Modelled from the spec: a VerificationRecord "holds an issued code
and an issuance timestamp"; at most one live record per identity.
Times are whole minutes, the unit the handler's 15-minute threshold is
expressed in. -/
structure VerifRecord where
  code : String
  issuedAt : Nat
deriving DecidableEq

/-- Modelled from the spec: the VerificationService's per-identity map
from normalized identity keys to their single record. -/
structure Verifier where
  records : List (String × VerifRecord)
deriving DecidableEq

/-- Validity window / cooldown threshold: 15 minutes ("a fixed TTL
(same nominal duration as the cooldown, 15 minutes)"). -/
def cooldownMinutes : Nat := 15

def Verifier.lookup (v : Verifier) (k : String) : Option VerifRecord :=
  (v.records.find? (fun r => r.1 = k)).map (fun r => r.2)

/-- Modelled from the spec: `issuanceAge(identity) -> duration | absent`,
time since last issuance (minutes) or absent when no record exists. -/
def Verifier.checkCodeTime (v : Verifier) (k : String) (now : Nat) : Option Nat :=
  (v.lookup k).map (fun r => now - r.issuedAt)

/-- Modelled from the spec: `hasLiveCode(identity)` — a record exists and
has not exceeded its validity window. -/
def Verifier.hasCode (v : Verifier) (k : String) (now : Nat) : Bool :=
  match v.lookup k with
  | some r => now - r.issuedAt < cooldownMinutes
  | none => false

/-- Modelled from the spec: `verifyCode(identity, suppliedCode)` — true
iff a live record exists and its stored code equals the supplied code
exactly (the observed behavior is a boolean comparison; no consumption). -/
def Verifier.checkCode (v : Verifier) (k : String) (c : String) (now : Nat) : Bool :=
  match v.lookup k with
  | some r => (now - r.issuedAt < cooldownMinutes) && r.code = c
  | none => false

/-- Modelled from the spec: `issueCode(identity)` — stores a new code,
overwriting any existing record for that identity, stamping issuance
time.  The freshly generated code is an explicit argument. -/
def Verifier.createCode (v : Verifier) (k : String) (fresh : String) (now : Nat) : Verifier :=
  ⟨(k, ⟨fresh, now⟩) :: v.records.filter (fun r => r.1 ≠ k)⟩

/-- Identity normalization used on source lines 363 and 438:
`username.replaceAll("@", "")`. -/
def stripAt (s : String) : String := ⟨s.data.filter (fun c => c ≠ '@')⟩

/-! ## POST /courses/:code/sections/:section/link (source lines 360–396) -/

structure LinkBody where
  type : String
  url : String
  terms : String
  username : String
  code : String
  captcha : Option String
deriving DecidableEq

/-- `new Link({...req.body, createdAt: new Date(), updatedAt: new Date()})`
with the click counter starting at zero. -/
def Link.fromBody (b : LinkBody) (now : Nat) : Link :=
  { type := b.type, url := b.url, clicks := 0, createdAt := now, updatedAt := now }

/-- The request-shape check of source line 367 (route params and body
fields, by JS truthiness). -/
def linkFieldsPresent (codeParam sectionParam : String) (b : LinkBody) : Bool :=
  truthy (jsToUpper (jsTrim codeParam)) && truthy sectionParam && truthy b.type
    && truthy b.url && truthy b.terms && truthy b.username && truthy b.code

/-- First store round trip of the link handler (source line 380):
`findOne({ code, "sections.name": section, "sections.links.url": url })`.
The two array conditions are independent: they may be satisfied by
different sections of the same course. -/
def linkDupCheck (db : List Course) (code sec url : String) : Bool :=
  (db.find? (fun c =>
    c.code = code && c.matchesSectionName sec && c.matchesLinkUrl url)).isSome

/-- `$push: { "sections.$.links": link }` — append to the first section
whose name matches the query's `"sections.name"` condition. -/
def pushIntoFirstNamed : List Section → String → Link → List Section
  | [], _, _ => []
  | s :: rest, nm, l =>
    if s.name = nm then { s with links := s.links ++ [l] } :: rest
    else s :: pushIntoFirstNamed rest nm l

/-- Second store round trip of the link handler (source line 386):
`findOneAndUpdate({ code, "sections.name": section }, { $push: { "sections.$.links": link } })`. -/
def linkPush (db : List Course) (code sec : String) (l : Link) : Bool × List Course :=
  updateFirst db (fun c => c.code = code && c.matchesSectionName sec)
    (fun c => { c with sections := pushIntoFirstNamed c.sections sec l })

/-- Handler for `POST /courses/:code/sections/:section/link`.  The route
performs no captcha check; it is gated by the email verification code.
The verifier is read but never written by this route. -/
def createLinkHandler (db : List Course) (v : Verifier) (now : Nat)
    (codeParam sectionParam : String) (b : LinkBody) : Nat × List Course :=
  if linkFieldsPresent codeParam sectionParam b then
    if v.hasCode (stripAt b.username) now then
      if v.checkCode (stripAt b.username) b.code now then
        if linkDupCheck db (jsToUpper (jsTrim codeParam)) sectionParam b.url then
          (CONFLICT, db)
        else
          if (linkPush db (jsToUpper (jsTrim codeParam)) sectionParam (Link.fromBody b now)).1 then
            (CREATED,
             (linkPush db (jsToUpper (jsTrim codeParam)) sectionParam (Link.fromBody b now)).2)
          else
            (NOT_FOUND,
             (linkPush db (jsToUpper (jsTrim codeParam)) sectionParam (Link.fromBody b now)).2)
      else (UNAUTHORIZED, db)
    else (GONE, db)
  else (BAD_REQUEST, db)

/-! ## POST /courses/:code/sections/:section/link/click (source lines 398–426) -/

/-- The match filter of the click update:
`{ code, "sections.name": section, "sections.links.url": url }`. -/
def clickMatch (c : Course) (code sec url : String) : Bool :=
  c.code = code && c.matchesSectionName sec && c.matchesLinkUrl url

/-- Effect of `$inc { "sections.$[sec].links.$[link].clicks": 1 }` with
`arrayFilters: [{ "sec.links.url": url }, { "link.url": url }]` on one
section: every link whose url matches is incremented; the section name
plays no role in the array filters. -/
def Section.bumpLinks (s : Section) (url : String) : Section :=
  if s.links.any (fun l => l.url = url) then
    { s with links := s.links.map (fun l =>
        if l.url = url then { l with clicks := l.clicks + 1 } else l) }
  else s

/-- The single `findOneAndUpdate` of the click route: update the first
matching course, incrementing every url-matching link in every section. -/
def clickUpdate (db : List Course) (code sec url : String) : Bool × List Course :=
  updateFirst db (fun c => clickMatch c code sec url)
    (fun c => { c with sections := c.sections.map (fun s => Section.bumpLinks s url) })

/-- Handler for `POST /courses/:code/sections/:section/link/click`. -/
def clickHandler (db : List Course) (codeParam sectionParam url : String) :
    Nat × List Course :=
  if truthy url && truthy (jsToUpper (jsTrim codeParam)) && truthy sectionParam then
    (CREATED, (clickUpdate db (jsToUpper (jsTrim codeParam)) sectionParam url).2)
  else (BAD_REQUEST, db)

/-! ## POST /verify/create (source lines 430–466) -/

/-- Modelled from the spec: `deliver(identity, code) -> deliveryOutcome`;
"outcomes are {accepted, invalidAddress, providerFailure}".  The source
maps the provider's statusCode 422 to invalidAddress and any
non-202 result to providerFailure. -/
inductive DeliveryOutcome
  | accepted
  | invalidAddress
  | providerFailure
deriving DecidableEq

/-- The cooldown test of source line 441, `codeTime && codeTime < 15`,
under JS truthiness (an absent value and the number 0 are both falsy). -/
def cooldownHit : Option Nat → Bool
  | none => false
  | some t => (t ≠ 0 : Bool) && t < cooldownMinutes

/-- Handler for `POST /verify/create`.  Returns (status, next verifier
state, whether an email send was attempted).  The freshly generated
code and the delivery outcome are explicit arguments. -/
def verifyCreateHandler (v : Verifier) (now : Nat) (username : String)
    (captcha : Option String) (captchaOk : Bool) (fresh : String)
    (delivery : DeliveryOutcome) : Nat × Verifier × Bool :=
  if truthy username && captchaTruthy captcha && captchaOk then
    if cooldownHit (v.checkCodeTime (stripAt username) now) then (CREATED, v, false)
    else
      match delivery with
      | .invalidAddress => (UNPROCESSABLE, v.createCode (stripAt username) fresh now, true)
      | .providerFailure => (SERVER_ERROR, v.createCode (stripAt username) fresh now, true)
      | .accepted => (CREATED, v.createCode (stripAt username) fresh now, true)
  else (BAD_REQUEST, v, false)

/-! ## POST /report (source lines 487–499) -/

structure ReportBody where
  link_id : String
  reason : String
  captcha : Option String
  ip : Option String
deriving DecidableEq

structure Report where
  link_id : String
  reason : String
  ip : String
deriving DecidableEq

/-- Handler for `POST /report`:
`Report.create({ ...req.body, ip: req.connection.remoteAddress })` —
the spread body is overridden by the server-side remote address. -/
def reportHandler (reports : List Report) (b : ReportBody) (captchaOk : Bool)
    (remoteAddress : String) : Nat × List Report :=
  if truthy b.link_id && truthy b.reason && captchaTruthy b.captcha && captchaOk then
    (CREATED, reports ++ [{ link_id := b.link_id, reason := b.reason, ip := remoteAddress }])
  else (BAD_REQUEST, reports)

/-! ## AdmissionController (source lines 15–84, route wiring line 398) -/

/-- One rate-limit tier: window, budget, and whether the key generator
is the constant "ALL" (verifySpamLimiter) or the caller identity. -/
structure Tier where
  windowMs : Nat
  maxHits : Nat
  globalKey : Bool
deriving DecidableEq

def Tier.keyOf (t : Tier) (caller : String) : String :=
  if t.globalKey then "ALL" else caller

def newCourseLimiter : Tier := ⟨24 * 60 * 60 * 1000, 10, false⟩
def newLinkLimiter : Tier := ⟨60 * 1000, 30, false⟩
def newSectionLimiter : Tier := ⟨24 * 60 * 60 * 1000, 10, false⟩
def courseSearchLimiter : Tier := ⟨1000, 100, false⟩
def courseInfoLimiter : Tier := ⟨1000, 20, false⟩
def linkClicksLimiter : Tier := ⟨60 * 1000, 3, false⟩
def linkClicksLongLimiter : Tier := ⟨60 * 60 * 1000, 10, false⟩
def reportLimiter : Tier := ⟨60 * 1000, 1, false⟩
def verifyLimiter : Tier := ⟨60 * 1000, 1, false⟩
def verifySpamLimiter : Tier := ⟨60 * 60 * 24 * 1000, 300, true⟩

/-- Per-tier counter state: key ↦ (window start, hits in window). -/
structure TierState where
  hits : List (String × Nat × Nat)
deriving DecidableEq

def TierState.empty : TierState := ⟨[]⟩

/-- One request through one tier (fixed window):  increment the key's
counter, starting a fresh window when the previous one has elapsed;
admit iff the new count is within the budget. -/
def Tier.hit (t : Tier) (st : TierState) (caller : String) (now : Nat) :
    Bool × TierState :=
  let k := t.keyOf caller
  match st.hits.find? (fun e => e.1 = k) with
  | some e =>
    if t.windowMs ≤ now - e.2.1 then
      (1 ≤ t.maxHits, ⟨(k, now, 1) :: st.hits.filter (fun x => x.1 ≠ k)⟩)
    else
      (e.2.2 + 1 ≤ t.maxHits, ⟨(k, e.2.1, e.2.2 + 1) :: st.hits.filter (fun x => x.1 ≠ k)⟩)
  | none => (1 ≤ t.maxHits, ⟨(k, now, 1) :: st.hits⟩)

/-- One request through a route's middleware chain of tiers: stops (and
rejects with 429) at the first tier over budget. -/
def runTiers : List Tier → List TierState → String → Nat → Bool × List TierState
  | [], sts, _, _ => (true, sts)
  | t :: ts, st :: sts, caller, now =>
    let r := t.hit st caller now
    if r.1 then
      let rest := runTiers ts sts caller now
      (rest.1, r.2 :: rest.2)
    else (false, r.2 :: sts)
  | _ :: _, [], _, _ => (false, [])

/-- A sequence of requests (caller, time) through a route's tiers,
returning each request's admission decision. -/
def runSeq (tiers : List Tier) : List TierState → List (String × Nat) →
    List Bool × List TierState
  | sts, [] => ([], sts)
  | sts, (caller, now) :: rest =>
    let r := runTiers tiers sts caller now
    let rs := runSeq tiers r.2 rest
    (r.1 :: rs.1, rs.2)

/-- The middleware chain attached to the click route on source line 398:
`app.post("/courses/:code/sections/:section/link/click", newLinkLimiter, ...)`.
`linkClicksLimiter` and `linkClicksLongLimiter` are defined (lines 54–64)
but attached to no route. -/
def linkClickRouteTiers : List Tier := [newLinkLimiter]

/-! ## Store lemmas -/

theorem updateFirst_of_forall_false {p : Course → Bool} {f : Course → Course}
    {db : List Course} (h : ∀ x ∈ db, p x = false) :
    updateFirst db p f = (false, db) := by
  induction db with
  | nil => rfl
  | cons c rest ih =>
    have hc := h c (by simp)
    have hr := ih (fun x hx => h x (by simp [hx]))
    simp [updateFirst, hc, hr]

theorem updateFirst_fst_false {p : Course → Bool} {f : Course → Course}
    {db : List Course} (h : (updateFirst db p f).1 = false) :
    (updateFirst db p f).2 = db := by
  induction db with
  | nil => rfl
  | cons c rest ih =>
    cases hc : p c with
    | true => simp [updateFirst, hc] at h
    | false =>
      simp only [updateFirst, hc, Bool.false_eq_true, if_false] at h ⊢
      simpa using ih h

theorem updateFirst_append {p : Course → Bool} {f : Course → Course}
    (pre post : List Course) (c : Course)
    (hpre : ∀ x ∈ pre, p x = false) (hc : p c = true) :
    updateFirst (pre ++ c :: post) p f = (true, pre ++ f c :: post) := by
  induction pre with
  | nil => simp [updateFirst, hc]
  | cons a rest ih =>
    have ha := hpre a (by simp)
    have hr := ih (fun x hx => hpre x (by simp [hx]))
    simp [updateFirst, ha, hr]

theorem bumpLinks_links (s : Section) (u : String) :
    (Section.bumpLinks s u).links
      = s.links.map (fun l => if l.url = u then { l with clicks := l.clicks + 1 } else l) := by
  unfold Section.bumpLinks
  cases ha : s.links.any (fun l => l.url = u) with
  | true => rfl
  | false =>
    have hnone := List.any_eq_false.mp ha
    have : s.links.map (fun l => if l.url = u then { l with clicks := l.clicks + 1 } else l)
        = s.links.map id := by
      refine List.map_congr_left (fun l hl => ?_)
      have : ¬ l.url = u := by simpa using hnone l hl
      simp [this]
    simp [this]

/-- `checkCode` succeeding implies the record is live. -/
theorem Verifier.hasCode_of_checkCode {v : Verifier} {k c : String} {now : Nat}
    (h : v.checkCode k c now = true) : v.hasCode k now = true := by
  unfold Verifier.checkCode at h
  unfold Verifier.hasCode
  cases hl : v.lookup k with
  | none => rw [hl] at h; exact absurd h (by simp)
  | some r =>
    rw [hl] at h
    simp only [Bool.and_eq_true] at h
    exact h.1

/-! ## Claims -/

/-- A course and an empty section for the concurrency scenario. -/
def raceDb0 : List Course :=
  [{ code := "LEEECS1012", name := "Web Dev", faculty := "LE", subject := "EECS",
     number := "1012", credits := "3.00", sections := [] }]

def raceSec : Section := { name := "A", links := [] }

/-- C1: section creation is *not* one atomic conditional update: the
duplicate-name check (source line 325) and the append (line 329) are two
separate store operations, and the append's filter does not exclude a
course already holding a section of the target name.  Interleaving two
identical requests — both duplicate checks before either append — makes
both appends succeed, so both requests answer 201 and the course ends up
with two sections of the same name, refuting the claimed atomicity and
the claimed invariant.  (Sequentially the second request does observe
409, as the last conjunct shows.) -/
theorem sectionCreation_race_codeBug :
    sectionDupCheck raceDb0 "LEEECS1012" "A" = false
    ∧ (sectionPush raceDb0 "LEEECS1012" raceSec).1 = true
    ∧ (sectionPush (sectionPush raceDb0 "LEEECS1012" raceSec).2 "LEEECS1012" raceSec).1 = true
    ∧ (sectionPush (sectionPush raceDb0 "LEEECS1012" raceSec).2 "LEEECS1012" raceSec).2
        = [{ code := "LEEECS1012", name := "Web Dev", faculty := "LE", subject := "EECS",
             number := "1012", credits := "3.00", sections := [raceSec, raceSec] }]
    ∧ createSectionHandler (sectionPush raceDb0 "LEEECS1012" raceSec).2 "LEEECS1012"
        { name := "A", captcha := some "tok" } true
        = (CONFLICT, (sectionPush raceDb0 "LEEECS1012" raceSec).2) := by
  decide

def c2db : List Course :=
  [{ code := "LEEECS1012", name := "Web Dev", faculty := "LE", subject := "EECS",
     number := "1012", credits := "3.00", sections := [{ name := "A", links := [] }] }]

def c2verifier : Verifier := ⟨[("user", { code := "123456", issuedAt := 0 })]⟩

def c2body : LinkBody :=
  { type := "video", url := "https://y", terms := "F24", username := "user",
    code := "123456", captcha := none }

/-- C2 counterexample: link creation is a content-creating endpoint, yet
with the captcha token absent (and all other fields valid) the handler
does not return a client error — it proceeds to the store mutation and
answers 201, because the route performs no captcha check at all. -/
theorem linkCreation_noCaptchaGate_cex :
    c2body.captcha = none
    ∧ createLinkHandler c2db c2verifier 0 "LEEECS1012" "A" c2body
        = (CREATED,
           [{ code := "LEEECS1012", name := "Web Dev", faculty := "LE", subject := "EECS",
              number := "1012", credits := "3.00",
              sections := [{ name := "A",
                             links := [{ type := "video", url := "https://y", clicks := 0,
                                         createdAt := 0, updatedAt := 0 }] }] }]) := by
  decide

/-- C2 amended: course creation, section creation, verification issuance
and report submission return 400 and perform no state change whenever
the captcha token is absent/empty or the captcha check fails; link
creation is not captcha-gated (it is gated by the email verification
code instead, see the counterexample). -/
theorem captchaGate_amended (db : List Course) (cb : CourseBody) (cp : String)
    (sb : SectionBody) (v : Verifier) (now : Nat) (un fresh : String)
    (d : DeliveryOutcome) (rs : List Report) (rb : ReportBody) (remote : String)
    (cap : Option String) (ok : Bool)
    (hfail : captchaTruthy cap = false ∨ ok = false) :
    createCourseHandler db { cb with captcha := cap } ok = (BAD_REQUEST, none, db)
    ∧ createSectionHandler db cp { sb with captcha := cap } ok = (BAD_REQUEST, db)
    ∧ verifyCreateHandler v now un cap ok fresh d = (BAD_REQUEST, v, false)
    ∧ reportHandler rs { rb with captcha := cap } ok remote = (BAD_REQUEST, rs) := by
  rcases hfail with h | h <;>
    simp [createCourseHandler, courseFieldsOk, createSectionHandler, verifyCreateHandler,
          reportHandler, h]

def noCapCourseBody : CourseBody :=
  { name := "n", subject := "S", number := "1", faculty := "F", credits := "3",
    captcha := none }

def noCapReportBody : ReportBody :=
  { link_id := "l", reason := "r", captcha := none, ip := none }

/-- Witness for `captchaGate_amended` at a concrete absent token. -/
theorem captchaGate_amended_witness :
    createCourseHandler [] noCapCourseBody true = (BAD_REQUEST, none, []) :=
  (captchaGate_amended [] noCapCourseBody "" { name := "A", captcha := none } ⟨[]⟩ 0 "u" "c"
      DeliveryOutcome.accepted [] noCapReportBody "ip" none true (Or.inl rfl)).1

def c3db : List Course :=
  [{ code := "AB12", name := "n", faculty := "A", subject := "B", number := "1",
     credits := "2", sections := [] }]

def c3body : CourseBody :=
  { name := "n2", subject := "B", number := "1", faculty := "a", credits := "2",
    captcha := some "tok" }

/-- C3 counterexample: a course whose stored code equals the uppercase,
trimmed concatenation of the request's faculty+subject+number+credits
already exists, yet the handler answers 201 and inserts a second course
with the same derived code — because the conflict check on source line
287 queries the *raw* concatenation, which differs in case. -/
theorem createCourse_normalization_cex :
    deriveCode c3body = "AB12"
    ∧ (∃ c ∈ c3db, c.code = deriveCode c3body)
    ∧ (createCourseHandler c3db c3body true).1 = CREATED
    ∧ (createCourseHandler c3db c3body true).2.2 = c3db ++ [Course.fromBody c3body] := by
  decide

/-- C3 amended: for a valid request (fields present, captcha passed),
course creation fails with 409 if and only if a stored course's code
equals the *raw* (un-normalized) concatenation faculty+subject+number+
credits of the request; when no stored code equals that raw key the
course is inserted and 201 is returned with the echoed body — so a
request whose raw concatenation differs in case from an existing
normalized code bypasses the conflict check (see the counterexample). -/
theorem createCourse_amended (db : List Course) (b : CourseBody)
    (hf : courseFieldsOk b = true) :
    ((createCourseHandler db b true).1 = CONFLICT ↔ ∃ c ∈ db, c.code = rawCode b)
    ∧ ((∀ c ∈ db, c.code ≠ rawCode b) →
        createCourseHandler db b true = (CREATED, some b, db ++ [Course.fromBody b])) := by
  cases hfind : db.find? (fun c => c.code = rawCode b) with
  | some c =>
    have hmem := List.mem_of_find?_eq_some hfind
    have hpred : c.code = rawCode b := by simpa using List.find?_some hfind
    have hh : createCourseHandler db b true = (CONFLICT, none, db) := by
      simp [createCourseHandler, hf, hfind]
    refine ⟨⟨fun _ => ⟨c, hmem, hpred⟩, fun _ => by simp [hh]⟩, fun hall => ?_⟩
    exact absurd hpred (hall c hmem)
  | none =>
    have hall := List.find?_eq_none.mp hfind
    have hh : createCourseHandler db b true
        = (CREATED, some b, db ++ [Course.fromBody b]) := by
      simp [createCourseHandler, hf, hfind]
    refine ⟨⟨fun h => ?_, fun he => ?_⟩, fun _ => hh⟩
    · rw [hh] at h
      simp [CREATED, CONFLICT] at h
    · rcases he with ⟨c, hc, hcode⟩
      exact absurd hcode (by simpa using hall c hc)

def c3wbody : CourseBody :=
  { name := "Intro", subject := "EECS", number := "1012", faculty := "LE",
    credits := "3.00", captcha := some "tok" }

/-- Witness for `createCourse_amended`: a valid request against an empty
store inserts and echoes. -/
theorem createCourse_amended_witness :
    createCourseHandler [] c3wbody true
      = (CREATED, some c3wbody, [Course.fromBody c3wbody]) :=
  (createCourse_amended [] c3wbody (by decide)).2 (by decide)

/-- The conflict filter of the link route, characterized: the two array
conditions range over the sections independently. -/
theorem linkDupCheck_iff (db : List Course) (code sec url : String) :
    linkDupCheck db code sec url = true
      ↔ ∃ c ∈ db, (c.code = code ∧ (∃ s ∈ c.sections, s.name = sec)
          ∧ ∃ s ∈ c.sections, ∃ l ∈ s.links, l.url = url) := by
  simp [linkDupCheck, Course.matchesSectionName, Course.matchesLinkUrl,
        List.find?_isSome, and_assoc]

def c4db : List Course :=
  [{ code := "LEEECS1012", name := "Web Dev", faculty := "LE", subject := "EECS",
     number := "1012", credits := "3.00",
     sections :=
       [{ name := "A",
          links := [{ type := "video", url := "https://x", clicks := 0,
                      createdAt := 0, updatedAt := 0 }] },
        { name := "B", links := [] }] }]

def c4verifier : Verifier := ⟨[("user", { code := "654321", issuedAt := 0 })]⟩

def c4body : LinkBody :=
  { type := "video", url := "https://x", terms := "F24", username := "user",
    code := "654321", captcha := some "tok" }

/-- C4 counterexample: the url exists only under section "A"; the
request addresses section "B" of the same course, under which no link
has that url — yet the handler answers Conflict (409), because the
filter's two array conditions are matched by different sections. -/
theorem createLink_crossSection_cex :
    (∀ c ∈ c4db, ∀ s ∈ c.sections, s.name = "B" → ∀ l ∈ s.links, l.url ≠ "https://x")
    ∧ createLinkHandler c4db c4verifier 0 "LEEECS1012" "B" c4body = (CONFLICT, c4db) := by
  decide

/-- C4 amended: for a valid and code-verified request, link creation
fails with Conflict (409) if and only if some stored course has the
given code, has *some* section named :section, and has — in *any* of
its sections, not necessarily the named one — a link with the target
url.  A url present only under a different section of the same course
therefore does cause Conflict. -/
theorem createLink_conflict_amended (db : List Course) (v : Verifier) (now : Nat)
    (cp sp : String) (b : LinkBody)
    (hf : linkFieldsPresent cp sp b = true)
    (hv : v.checkCode (stripAt b.username) b.code now = true) :
    (createLinkHandler db v now cp sp b).1 = CONFLICT
      ↔ ∃ c ∈ db, (c.code = jsToUpper (jsTrim cp) ∧ (∃ s ∈ c.sections, s.name = sp)
          ∧ ∃ s ∈ c.sections, ∃ l ∈ s.links, l.url = b.url) := by
  have hh := Verifier.hasCode_of_checkCode hv
  rw [← linkDupCheck_iff]
  unfold createLinkHandler
  simp only [hf, hh, hv, if_true]
  cases hd : linkDupCheck db (jsToUpper (jsTrim cp)) sp b.url with
  | true => simp
  | false =>
    simp only [Bool.false_eq_true, if_false]
    cases hr : (linkPush db (jsToUpper (jsTrim cp)) sp (Link.fromBody b now)).1 <;>
      simp [CREATED, NOT_FOUND, CONFLICT]

def c4wdb : List Course :=
  [{ code := "C1", name := "n", faculty := "C", subject := "X", number := "1",
     credits := "3",
     sections :=
       [{ name := "A",
          links := [{ type := "video", url := "https://x", clicks := 0,
                      createdAt := 0, updatedAt := 0 }] }] }]

/-- Witness for `createLink_conflict_amended`: a url duplicated within
the addressed section itself yields 409. -/
theorem createLink_conflict_amended_witness :
    (createLinkHandler c4wdb c4verifier 0 "C1" "A" c4body).1 = CONFLICT :=
  (createLink_conflict_amended c4wdb c4verifier 0 "C1" "A" c4body
    (by decide) (by decide)).mpr (by decide)

/-- C5: for link creation, a missing required field yields 400 with no
state change and a result independent of the verifier (the verifier is
consulted only after validation); with fields present, no live record
for the normalized username yields 410; a live record whose stored code
differs from the supplied one yields 401; only a matching code reaches
the store mutation (whose outcomes are 409, 201 or 404); and every
non-201 outcome leaves the store unchanged. -/
theorem linkVerificationGate (db : List Course) (v v2 : Verifier) (now : Nat)
    (cp sp : String) (b : LinkBody) :
    (linkFieldsPresent cp sp b = false →
      createLinkHandler db v now cp sp b = (BAD_REQUEST, db)
      ∧ createLinkHandler db v now cp sp b = createLinkHandler db v2 now cp sp b)
    ∧ (linkFieldsPresent cp sp b = true →
        Verifier.hasCode v (stripAt b.username) now = false →
        createLinkHandler db v now cp sp b = (GONE, db))
    ∧ (linkFieldsPresent cp sp b = true →
        ∀ r, Verifier.lookup v (stripAt b.username) = some r →
          now - r.issuedAt < cooldownMinutes → r.code ≠ b.code →
          createLinkHandler db v now cp sp b = (UNAUTHORIZED, db))
    ∧ (linkFieldsPresent cp sp b = true →
        Verifier.checkCode v (stripAt b.username) b.code now = true →
        (createLinkHandler db v now cp sp b).1 = CONFLICT
        ∨ (createLinkHandler db v now cp sp b).1 = CREATED
        ∨ (createLinkHandler db v now cp sp b).1 = NOT_FOUND)
    ∧ ((createLinkHandler db v now cp sp b).1 ≠ CREATED →
        (createLinkHandler db v now cp sp b).2 = db) := by
  refine ⟨?_, ?_, ?_, ?_, ?_⟩
  · intro hf
    simp [createLinkHandler, hf]
  · intro hf hhas
    simp [createLinkHandler, hf, hhas]
  · intro hf r hr hlive hne
    have hhas : v.hasCode (stripAt b.username) now = true := by
      simp [Verifier.hasCode, hr, hlive]
    have hchk : v.checkCode (stripAt b.username) b.code now = false := by
      simp [Verifier.checkCode, hr, hlive, hne]
    simp [createLinkHandler, hf, hhas, hchk]
  · intro hf hchk
    have hhas := Verifier.hasCode_of_checkCode hchk
    cases hd : linkDupCheck db (jsToUpper (jsTrim cp)) sp b.url with
    | true => exact Or.inl (by simp [createLinkHandler, hf, hhas, hchk, hd])
    | false =>
      cases hr : (linkPush db (jsToUpper (jsTrim cp)) sp (Link.fromBody b now)).1 with
      | true => exact Or.inr (Or.inl (by simp [createLinkHandler, hf, hhas, hchk, hd, hr]))
      | false => exact Or.inr (Or.inr (by simp [createLinkHandler, hf, hhas, hchk, hd, hr]))
  · intro hne
    cases hf : linkFieldsPresent cp sp b with
    | false => simp [createLinkHandler, hf]
    | true =>
      cases hhas : v.hasCode (stripAt b.username) now with
      | false => simp [createLinkHandler, hf, hhas]
      | true =>
        cases hchk : v.checkCode (stripAt b.username) b.code now with
        | false => simp [createLinkHandler, hf, hhas, hchk]
        | true =>
          cases hd : linkDupCheck db (jsToUpper (jsTrim cp)) sp b.url with
          | true => simp [createLinkHandler, hf, hhas, hchk, hd]
          | false =>
            cases hr : (linkPush db (jsToUpper (jsTrim cp)) sp (Link.fromBody b now)).1 with
            | true =>
              exact absurd (by simp [createLinkHandler, hf, hhas, hchk, hd, hr]) hne
            | false =>
              have h2 : (linkPush db (jsToUpper (jsTrim cp)) sp (Link.fromBody b now)).2 = db :=
                updateFirst_fst_false hr
              simp [createLinkHandler, hf, hhas, hchk, hd, hr, h2]

def c5vEmpty : Verifier := ⟨[]⟩

/-- Witness for `linkVerificationGate`: with no verification record for
the username, a fully populated request is answered 410 (Gone). -/
theorem linkVerificationGate_witness :
    createLinkHandler c2db c5vEmpty 0 "LEEECS1012" "A" c2body = (GONE, c2db) :=
  (linkVerificationGate c2db c5vEmpty c5vEmpty 0 "LEEECS1012" "A" c2body).2.1
    (by decide) (by decide)

def c6verifier : Verifier := ⟨[("user", { code := "111111", issuedAt := 5 })]⟩

/-- C6 counterexample: at `now = 5` the identity's issuance age is
present (0 minutes) and below the 15-minute threshold, yet the request
is not an idempotent no-op: the cooldown test `codeTime && codeTime < 15`
treats the age 0 as falsy, so a fresh code overwrites the stored one
("111111" becomes "222222") and an email send is attempted. -/
theorem verifyCreate_zeroAge_cex :
    Verifier.checkCodeTime c6verifier "user" 5 = some 0
    ∧ verifyCreateHandler c6verifier 5 "user" (some "tok") true "222222"
        DeliveryOutcome.accepted
        = (CREATED, ⟨[("user", { code := "222222", issuedAt := 5 })]⟩, true) := by
  decide

/-- C6 amended: a verification-issuance request whose identity has an
issuance age that is present, *positive*, and below the 15-minute
threshold returns 201 without issuing a new code, without attempting an
email send, and without changing the verifier state — so verifying the
original code afterwards behaves identically.  (At age exactly zero the
handler's truthiness test fails and it reissues; see the
counterexample.) -/
theorem verifyCreate_cooldown_amended (v : Verifier) (now : Nat) (username : String)
    (cap : Option String) (fresh : String) (d : DeliveryOutcome) (t : Nat)
    (hu : truthy username = true) (hc : captchaTruthy cap = true)
    (ht : v.checkCodeTime (stripAt username) now = some t)
    (h0 : 0 < t) (h15 : t < cooldownMinutes) :
    verifyCreateHandler v now username cap true fresh d = (CREATED, v, false)
    ∧ ∀ now2 c0, Verifier.checkCode
        (verifyCreateHandler v now username cap true fresh d).2.1
        (stripAt username) c0 now2 = Verifier.checkCode v (stripAt username) c0 now2 := by
  have h0' : t ≠ 0 := Nat.pos_iff_ne_zero.mp h0
  have hcool : cooldownHit (v.checkCodeTime (stripAt username) now) = true := by
    simp [cooldownHit, ht, h0', h15]
  have hh : verifyCreateHandler v now username cap true fresh d = (CREATED, v, false) := by
    simp [verifyCreateHandler, hu, hc, hcool]
  exact ⟨hh, fun now2 c0 => by rw [hh]⟩

/-- Witness for `verifyCreate_cooldown_amended` at age 1 minute. -/
theorem verifyCreate_cooldown_amended_witness :
    verifyCreateHandler c6verifier 6 "user" (some "tok") true "222222"
      DeliveryOutcome.accepted = (CREATED, c6verifier, false) :=
  (verifyCreate_cooldown_amended c6verifier 6 "user" (some "tok") "222222"
    DeliveryOutcome.accepted 1 (by decide) (by decide) (by decide) (by decide)
    (by decide)).1

def c7db : List Course :=
  [{ code := "C1", name := "n", faculty := "C", subject := "X", number := "1",
     credits := "3",
     sections :=
       [{ name := "A",
          links := [{ type := "video", url := "u", clicks := 0,
                      createdAt := 0, updatedAt := 0 }] },
        { name := "B", links := [] }] }]

/-- C7 counterexample: no link is addressed by the triple
(course "C1", section "B", url "u") — section "B" holds no link with
that url — yet the request is not a no-op: the filter matches the
course (name condition met by "B", url condition met by "A") and the
`arrayFilters` address links by url alone, so the counter of the link
under section "A" is incremented. -/
theorem clickIncrement_cex :
    (∀ c ∈ c7db, ∀ s ∈ c.sections, s.name = "B" → ∀ l ∈ s.links, l.url ≠ "u")
    ∧ clickHandler c7db "C1" "B" "u"
        = (CREATED,
           [{ code := "C1", name := "n", faculty := "C", subject := "X", number := "1",
              credits := "3",
              sections :=
                [{ name := "A",
                   links := [{ type := "video", url := "u", clicks := 1,
                               createdAt := 0, updatedAt := 0 }] },
                 { name := "B", links := [] }] }]) := by
  decide

/-- C7 amended: with a required field missing the click route answers
400 and changes nothing.  With fields present it always answers 201;
when no course matches the filter (course code, *some* section with the
given name, *some* section containing the url) it is a silent no-op that
creates and modifies nothing; when a course matches, the update
increments the counter of *every* link whose url matches, in *every*
section of the first matching course — the section name plays no role in
selecting the incremented links — and leaves every other link and course
unchanged. -/
theorem clickIncrement_amended (db pre post : List Course) (c : Course) (cp sp u : String) :
    ((truthy u && truthy (jsToUpper (jsTrim cp)) && truthy sp) = false →
      clickHandler db cp sp u = (BAD_REQUEST, db))
    ∧ ((truthy u && truthy (jsToUpper (jsTrim cp)) && truthy sp) = true →
        (∀ x ∈ db, clickMatch x (jsToUpper (jsTrim cp)) sp u = false) →
        clickHandler db cp sp u = (CREATED, db))
    ∧ ((truthy u && truthy (jsToUpper (jsTrim cp)) && truthy sp) = true →
        (∀ x ∈ pre, clickMatch x (jsToUpper (jsTrim cp)) sp u = false) →
        clickMatch c (jsToUpper (jsTrim cp)) sp u = true →
        clickHandler (pre ++ c :: post) cp sp u
          = (CREATED,
             pre ++ { c with sections := c.sections.map (fun s => Section.bumpLinks s u) }
               :: post))
    ∧ (∀ s : Section, (Section.bumpLinks s u).links
        = s.links.map (fun l => if l.url = u then { l with clicks := l.clicks + 1 } else l)) := by
  refine ⟨?_, ?_, ?_, fun s => bumpLinks_links s u⟩
  · intro h
    simp [clickHandler, h]
  · intro h hall
    have h2 := updateFirst_of_forall_false
      (f := fun x => { x with sections := x.sections.map (fun s => Section.bumpLinks s u) })
      hall
    simp [clickHandler, clickUpdate, h, h2]
  · intro h hpre hc
    have h2 := updateFirst_append
      (f := fun x => { x with sections := x.sections.map (fun s => Section.bumpLinks s u) })
      pre post c hpre hc
    simp [clickHandler, clickUpdate, h, h2]

/-- Witness for `clickIncrement_amended`: a click against an empty store
is a silent no-op answered 201. -/
theorem clickIncrement_amended_witness :
    clickHandler [] "C1" "A" "u" = (CREATED, []) :=
  (clickIncrement_amended [] [] [] (Course.fromBody c3wbody) "C1" "A" "u").2.1
    (by decide) (by decide)

/-- Four click requests from one caller inside a single 60-second window. -/
def c8seq : List (String × Nat) := [("a", 0), ("a", 10000), ("a", 20000), ("a", 30000)]

/-- C8: the click route's middleware chain (source line 398) is
`newLinkLimiter` (60s / 30) alone — `linkClicksLimiter` (60s / 3) and
`linkClicksLongLimiter` (3600s / 10) are defined on lines 54–64 but
attached to no route.  A caller's fourth click request within 60 seconds
is therefore admitted, not rejected with 429.  Had the tight tier been
attached, exactly the fourth request would have been rejected while a
different caller remained unaffected, as the last two conjuncts show. -/
theorem linkClickRateLimit_codeBug :
    (runSeq linkClickRouteTiers [TierState.empty] c8seq).1 = [true, true, true, true]
    ∧ (runSeq [linkClicksLimiter] [TierState.empty] c8seq).1 = [true, true, true, false]
    ∧ (runSeq [linkClicksLimiter]
        (runSeq [linkClicksLimiter] [TierState.empty] c8seq).2 [("b", 30000)]).1
        = [true] := by
  decide

/-- C9: a stored report's origin is the connection's remote address as
captured server-side; two report requests identical except for the
client-supplied `ip` body field store the same record, whose origin
equals the remote address — client input never determines it. -/
theorem reportOrigin_serverSide (reports : List Report) (b : ReportBody)
    (x y : Option String) (remote : String)
    (h1 : truthy b.link_id = true) (h2 : truthy b.reason = true)
    (h3 : captchaTruthy b.captcha = true) :
    reportHandler reports { b with ip := x } true remote
      = reportHandler reports { b with ip := y } true remote
    ∧ reportHandler reports { b with ip := x } true remote
      = (CREATED, reports ++ [{ link_id := b.link_id, reason := b.reason, ip := remote }]) := by
  simp [reportHandler, h1, h2, h3]

def c9body : ReportBody :=
  { link_id := "l1", reason := "spam", captcha := some "tok", ip := some "6.6.6.6" }

/-- Witness for `reportOrigin_serverSide`: a report supplying a fake ip
in the body is stored with the connection's remote address. -/
theorem reportOrigin_serverSide_witness :
    reportHandler [] c9body true "9.9.9.9"
      = (CREATED, [{ link_id := "l1", reason := "spam", ip := "9.9.9.9" }]) :=
  (reportOrigin_serverSide [] c9body (some "6.6.6.6") none "9.9.9.9"
    (by decide) (by decide) (by decide)).2

/-- C10: verification issuance and link creation normalize the identity
identically, stripping every `@` from the username before use as the
record key; two non-empty usernames equal after stripping are
indistinguishable to both handlers, and a code issued for one is
accepted when verifying the other (within the validity window). -/
theorem identityNormalization_collision (v : Verifier) (now now2 : Nat) (u1 u2 : String)
    (cap : Option String) (ok : Bool) (fresh : String) (d : DeliveryOutcome)
    (db : List Course) (cp sp : String) (b : LinkBody)
    (h12 : stripAt u1 = stripAt u2) (h1 : truthy u1 = true) (h2 : truthy u2 = true)
    (hlive : now2 - now < cooldownMinutes) :
    verifyCreateHandler v now u1 cap ok fresh d = verifyCreateHandler v now u2 cap ok fresh d
    ∧ createLinkHandler db v now cp sp { b with username := u1 }
        = createLinkHandler db v now cp sp { b with username := u2 }
    ∧ Verifier.checkCode (Verifier.createCode v (stripAt u1) fresh now) (stripAt u2)
        fresh now2 = true := by
  refine ⟨?_, ?_, ?_⟩
  · simp [verifyCreateHandler, h1, h2, h12]
  · simp [createLinkHandler, linkFieldsPresent, Link.fromBody, h1, h2, h12]
  · simp [Verifier.checkCode, Verifier.lookup, Verifier.createCode, List.find?, ← h12, hlive]

/-- Witness for `identityNormalization_collision`: a code issued for
"u@x" verifies for "ux". -/
theorem identityNormalization_collision_witness :
    Verifier.checkCode (Verifier.createCode ⟨[]⟩ (stripAt "u@x") "999999" 0) (stripAt "ux")
      "999999" 3 = true :=
  (identityNormalization_collision ⟨[]⟩ 0 3 "u@x" "ux" (some "tok") true "999999"
    DeliveryOutcome.accepted [] "C1" "A" c2body (by decide) (by decide) (by decide)
    (by decide)).2.2

end YorkUChats
